import Mathlib

/-!
# Formal model of the firmware OTA update subsystem

A shallow embedding, in Lean 4, of the over-the-air update and rollback
code of the firmware repository:

* `src/ota_manager.py` — `OTAManager` (download, pre-update checks,
  install, bundle install, retry loop, version comparison);
* `src/ota/ota_updater.py` — `OTAUpdater` (bundle download, atomic
  version switch, apply-update flow);
* `src/version_manager.py` — `VersionManager` (manifest persistence,
  backup/restore, integrity verification).

File systems are modelled as association lists from paths (relative to
the firmware base directory) to nodes (regular file with content,
directory, or symlink).  Operations that matter for atomicity return the
full trace of intermediate file-system states, one state per file-system
mutation performed by the Python code, so that properties about
"intermediate points" can be stated.  MD5 is modelled as an arbitrary
function `hashFn : String → String` over file contents.
-/

/-- A node of the modelled file system: a regular file with its content,
a directory, or a symbolic link holding a target path. -/
inductive FsNode where
  | file (content : String)
  | dir
  | symlink (target : String)
deriving DecidableEq, Repr

/-- A file-system state: an association list from paths to nodes.  Paths
are written relative to the firmware base directory
(`/home/pi/facial-tracker-firmware`). -/
abbrev FS := List (String × FsNode)

/-- Look a path up in a file-system state (first binding wins). -/
def fsLookup : FS → String → Option FsNode
  | [], _ => none
  | (q, n) :: rest, p => if q = p then some n else fsLookup rest p

/-- Remove every binding of a path (`unlink` / `rmtree`). -/
def fsErase : FS → String → FS
  | [], _ => []
  | (q, n) :: rest, p => if q = p then fsErase rest p else (q, n) :: fsErase rest p

/-- Bind a path to a node, replacing any previous binding (file write,
`mkdir`, `symlink_to`, `copy2` destination). -/
def fsSet (fs : FS) (p : String) (n : FsNode) : FS := (p, n) :: fsErase fs p

/-- `Path.exists()` of the model. -/
def fsPathExists (fs : FS) (p : String) : Bool := (fsLookup fs p).isSome

/-- `VersionManager._calculate_checksum` (src/version_manager.py, lines
172-177): returns the empty string when the file is missing, otherwise
the hash (MD5 in the source, modelled by `hashFn`) of its content. -/
def calculate_checksum (hashFn : String → String) (fs : FS) (p : String) : String :=
  match fsLookup fs p with
  | some (FsNode.file c) => hashFn c
  | _ => ""

/-- A valid `current` pointer: the path `current` is bound to a symlink
whose target exists in the file system. -/
def current_valid (fs : FS) : Bool :=
  match fsLookup fs "current" with
  | some (FsNode.symlink t) => fsPathExists fs t
  | _ => false

/-- `OTAUpdater._switch_version` (src/ota/ota_updater.py, lines 402-426).
Builds a fresh `current.tmp` symlink to the version directory and renames
it over `current`; the rename is one atomic step (`Path.rename` replaces
the destination in a single metadata update).  Returns the success flag
and the trace of file-system states: the initial state, then the state
after each file-system mutation. -/
def switch_version (fs : FS) (version : String) : Bool × List FS :=
  let version_dir := "releases/" ++ version
  if ¬ fsPathExists fs version_dir then (false, [fs])
  else
    let s1 := if fsPathExists fs "current.tmp" then fsErase fs "current.tmp" else fs
    let s2 := fsSet s1 "current.tmp" (FsNode.symlink version_dir)
    let s3 := fsSet (fsErase s2 "current.tmp") "current" (FsNode.symlink version_dir)
    (true, [fs, s1, s2, s3])

/-- The `current`-symlink update portion of `OTAManager._install_bundle`
(src/ota_manager.py, lines 540-548): if `current` is a symlink it is
unlinked, else if it exists it is removed with `rmtree`, and only then is
a new symlink to the version directory created in its place.  Returns the
success flag and the trace of file-system states. -/
def install_bundle_switch (fs : FS) (version_dir : String) : Bool × List FS :=
  let s1 :=
    match fsLookup fs "current" with
    | some (FsNode.symlink _) => fsErase fs "current"
    | some _ => fsErase fs "current"
    | none => fs
  let s2 := fsSet s1 "current" (FsNode.symlink version_dir)
  (true, [fs, s1, s2])

/-- `VersionManager.save_manifest` (src/version_manager.py, lines 179-194).
`open(manifest_file, 'w')` truncates the file in place, then `json.dump`
writes the serialised manifest; the same open-truncate-write is repeated
for the legacy `version.json`.  No temporary file, fsync or rename is
involved.  `manifestContent` and `legacyContent` are the two serialised
JSON values.  Returns the trace of file-system states: the initial state,
then the state after each mutation (truncation and write of each file). -/
def save_manifest (fs : FS) (manifestContent legacyContent : String) : List FS :=
  let s1 := fsSet fs "ota/manifest.json" (FsNode.file "")
  let s2 := fsSet s1 "ota/manifest.json" (FsNode.file manifestContent)
  let s3 := fsSet s2 "ota/version.json" (FsNode.file "")
  let s4 := fsSet s3 "ota/version.json" (FsNode.file legacyContent)
  [fs, s1, s2, s3, s4]

/-- The file-system state after `save_manifest` has completed. -/
def save_manifest_final (fs : FS) (manifestContent legacyContent : String) : FS :=
  (save_manifest fs manifestContent legacyContent).getLastD fs

/-- The resume branch of `OTAManager.download_file` (src/ota_manager.py,
lines 288-291): the content of an existing partial temp file
`dest + ".tmp"`, empty when there is none. -/
def download_prior (fs : FS) (dest : String) : String :=
  match fsLookup fs (dest ++ ".tmp") with
  | some (FsNode.file c) => c
  | _ => ""

/-- `OTAManager.download_file` (src/ota_manager.py, lines 274-318) on the
path where the network delivers `bytes` without an exception.  The stream
is written to `dest + ".tmp"` (appending to any existing partial temp
file — the resume branch); if an expected checksum is given and does not
match, the temp file is unlinked and `False` is returned; only after the
checksum verifies is the temp file moved (`shutil.move`, one atomic step)
onto `dest`.  Returns the result and the trace of file-system states. -/
def download_file (hashFn : String → String) (fs : FS) (bytes : String)
    (dest : String) (expected : Option String) : Bool × List FS :=
  let temp := dest ++ ".tmp"
  let content := download_prior fs dest ++ bytes
  let s1 := fsSet fs temp (FsNode.file content)
  match expected with
  | some e =>
    if hashFn content ≠ e then
      (false, [fs, s1, fsErase s1 temp])
    else
      (true, [fs, s1, fsSet (fsErase s1 temp) dest (FsNode.file content)])
  | none =>
    (true, [fs, s1, fsSet (fsErase s1 temp) dest (FsNode.file content)])

/-- `OTAUpdater.download_bundle` (src/ota/ota_updater.py, lines 263-304) on
the path where the network delivers `bytes` without an exception.  The
stream is written chunk by chunk directly to the destination bundle path
(`downloads/v<version>.tar.gz`); only afterwards is the checksum checked,
and a mismatch unlinks the destination and returns `None` (modelled as
`false`).  Returns the result and the trace of file-system states. -/
def download_bundle (hashFn : String → String) (fs : FS) (bytes : String)
    (dest : String) (expected : Option String) : Bool × List FS :=
  let s1 := fsSet fs dest (FsNode.file bytes)
  match expected with
  | some e =>
    if hashFn bytes ≠ e then
      (false, [fs, s1, fsErase s1 dest])
    else
      (true, [fs, s1])
  | none =>
    (true, [fs, s1])

/-- `VersionManager.TRACKED_COMPONENTS` (src/version_manager.py, lines
77-89): component name ↦ path relative to the base directory. -/
def TRACKED_COMPONENTS : List (String × String) := [
  ("facil_updated_1.py", "facil_updated_1.py"),
  ("get_gps_data.py", "get_gps_data.py"),
  ("device_provisioning.py", "device_provisioning.py"),
  ("provisioning_ui.py", "provisioning_ui.py"),
  ("mqtt_publisher.py", "mqtt_publisher.py"),
  ("ota_startup.py", "ota_startup.py"),
  ("send_data_to_api.py", "send_data_to_api.py"),
  ("store_locally.py", "store_locally.py"),
  ("upload_images.py", "optimize/upload_images.py"),
  ("get_user_info.py", "get_user_info.py"),
  ("get_configure.py", "get_configure.py")]

/-- `VersionManager.create_backup` (src/version_manager.py, lines 212-254)
called with a single component name.  If the component is tracked and its
source file exists, the file is copied to the quick-backup location
`backups/current/<comp>` and to the timestamped archive
`backups/archive/<timestamp>/<comp>` (whose directory is created first);
a missing source file is skipped, not an error.  The loop then ends and
`save_manifest` persists the manifest (its two serialised values are the
`manifestContent` / `legacyContent` arguments).  Returns the final
file-system state; the function returns `True` on all these paths. -/
def create_backup (fs : FS) (comp timestamp manifestContent legacyContent : String) : FS :=
  match List.lookup comp TRACKED_COMPONENTS with
  | none => save_manifest_final fs manifestContent legacyContent
  | some rel =>
    match fsLookup fs rel with
    | none => save_manifest_final fs manifestContent legacyContent
    | some node =>
      let fs1 := fsSet fs ("backups/current/" ++ comp) node
      let fs2 := fsSet fs1 ("backups/archive/" ++ timestamp) FsNode.dir
      let fs3 := fsSet fs2 ("backups/archive/" ++ timestamp ++ "/" ++ comp) node
      save_manifest_final fs3 manifestContent legacyContent

/-- `VersionManager.rollback` (src/version_manager.py, lines 256-299)
called with a single component name.  If the quick backup
`backups/current/<comp>` exists and the component is tracked, the backup
is copied back over the component's path; then (in every case)
`_log_update` writes a history file `ota/history/update_<ts>.json` and
`save_manifest` persists the manifest.  Returns the final file-system
state; the function returns `True` on all these paths. -/
def rollback (fs : FS) (comp historyTs manifestContent legacyContent : String) : FS :=
  let restored :=
    match fsLookup fs ("backups/current/" ++ comp) with
    | none => fs
    | some node =>
      match List.lookup comp TRACKED_COMPONENTS with
      | none => fs
      | some rel => fsSet fs rel node
  let logged := fsSet restored ("ota/history/update_" ++ historyTs ++ ".json")
    (FsNode.file "rollback")
  save_manifest_final logged manifestContent legacyContent

/-- The two ways `OTAManager.download_file` can fail, plus success.  The
function itself returns only a `bool` (see `outcome_ok`), so its caller
cannot tell the failure modes apart. -/
inductive FetchOutcome where
  | ok
  | checksumMismatch
  | networkError
deriving DecidableEq, Repr

/-- The `bool` that `OTAManager.download_file` actually returns: both
failure modes collapse to `False`. -/
def outcome_ok : FetchOutcome → Bool
  | FetchOutcome.ok => true
  | FetchOutcome.checksumMismatch => false
  | FetchOutcome.networkError => false

/-- The per-file retry loop of `OTAManager.download_update`
(src/ota_manager.py, lines 338-346):
`for attempt in range(max_download_retries)` calls `download_file`; a
success breaks out, a failure sleeps `2 ** attempt` seconds and retries;
exhausting the range returns failure.  `results i` is the outcome of the
`download_file` call at attempt index `i`.  Returns (number of
`download_file` calls made, the list of sleep durations, success flag). -/
def download_retry_loop (results : Nat → FetchOutcome) : Nat → Nat → Nat × List Nat × Bool
  | _, 0 => (0, [], false)
  | i, fuel + 1 =>
    if outcome_ok (results i) then (1, [], true)
    else
      let rest := download_retry_loop results (i + 1) fuel
      (rest.1 + 1, (2 ^ i) :: rest.2.1, rest.2.2)

/-- The retry loop as entered by `download_update`, starting at attempt 0
with the configured `max_download_retries` (default 3). -/
def download_update_retries (results : Nat → FetchOutcome) (max_retries : Nat) :
    Nat × List Nat × Bool :=
  download_retry_loop results 0 max_retries

/-- Observable steps of `OTAManager.install_update`. -/
inductive Event where
  | stopServices
  | createBackup (ok : Bool)
  | installFile (name : String)
  | saveManifest
  | startServices
  | healthCheck (ok : Bool)
  | rollbackAll
  | report (status : String)
deriving DecidableEq, Repr

/-- The file-install loop of `OTAManager.install_update` (src/ota_manager.py,
lines 431-454): each entry of `files` is a file name paired with whether
its `update_component` / `_install_bundle` call succeeds; the first
failure raises, abandoning the rest of the loop. -/
def install_loop : List (String × Bool) → List Event × Bool
  | [] => ([], true)
  | (n, ok) :: rest =>
    if ok then
      let r := install_loop rest
      (Event.installFile n :: r.1, r.2)
    else ([], false)

/-- Environment of one `OTAManager.install_update` run: the outcomes of
the external calls it makes. -/
structure InstallEnv where
  pre_checks_ok : Bool
  files : List (String × Bool)
  health_ok : Bool
  auto_rollback : Bool
deriving Repr

/-- The `except` branch of `OTAManager.install_update` (src/ota_manager.py,
lines 482-492): if auto-rollback is enabled, roll back and restart
services; in every case report failure. -/
def install_failure_events (env : InstallEnv) : List Event :=
  (if env.auto_rollback then [Event.rollbackAll, Event.startServices] else [])
    ++ [Event.report "failed"]

/-- `OTAManager.install_update` (src/ota_manager.py, lines 394-492), with
`backup_ok` the `bool` returned by `VersionManager.create_backup`.  The
source calls `self.version_manager.create_backup()` as a bare statement
and never inspects its return value, so `backup_ok` is recorded in the
event trace but does not influence control flow — exactly as in the
code.  Returns the success flag and the ordered event trace. -/
def install_update (backup_ok : Bool) (env : InstallEnv) : Bool × List Event :=
  if ¬ env.pre_checks_ok then (false, [])
  else
    let prefixEvents := [Event.stopServices, Event.createBackup backup_ok]
    let installed := install_loop env.files
    if ¬ installed.2 then
      (false, prefixEvents ++ installed.1 ++ install_failure_events env)
    else
      let evs := prefixEvents ++ installed.1
        ++ [Event.saveManifest, Event.startServices, Event.healthCheck env.health_ok]
      if ¬ env.health_ok ∧ env.auto_rollback then
        (false, evs ++ install_failure_events env)
      else
        (true, evs ++ [Event.report "success"])

/-- Observable steps of `OTAUpdater.apply_update`. -/
inductive AEvent where
  | download
  | extract (version : String)
  | stopServices
  | migrate
  | switchTo (version : String)
  | startServices
  | healthCheck (ok : Bool)
  | report (status : String)
deriving DecidableEq, Repr

/-- Environment of one `OTAUpdater.apply_update` run: the current version
(read from the `current` symlink at entry), the bundle's target version,
and the outcomes of the external steps. -/
structure ApplyEnv where
  current_version : String
  target_version : String
  download_ok : Bool
  extract_ok : Bool
  migration_ok : Bool
  switch_ok : Bool
  health_check_retries : Nat
  auto_rollback : Bool
deriving Repr

/-- The health-check retry loop of `OTAUpdater.apply_update`
(src/ota/ota_updater.py, lines 551-563): up to `health_check_retries`
polls, stopping at the first healthy one.  `health i` is the result of
the poll at attempt index `i`. -/
def health_check_loop (health : Nat → Bool) : Nat → Nat → List AEvent × Bool
  | _, 0 => ([], false)
  | i, fuel + 1 =>
    if health i then ([AEvent.healthCheck true], true)
    else
      let rest := health_check_loop health (i + 1) fuel
      (AEvent.healthCheck false :: rest.1, rest.2)

/-- `OTAUpdater.apply_update` (src/ota/ota_updater.py, lines 502-575).
`in_progress` models whether another update attempt is already running
somewhere else; the source keeps no orchestrator state and performs no
busy check, so the argument is never consulted.  The flow is: download,
extract, stop services, migrate, switch version (atomic symlink), start
services, health-check loop, and on health failure with auto-rollback
enabled switch back to the remembered previous version.  Returns the
`bool` result of the source function and the ordered event trace. -/
def apply_update (_in_progress : Bool) (env : ApplyEnv) (health : Nat → Bool) :
    Bool × List AEvent :=
  if ¬ env.download_ok then (false, [AEvent.download])
  else if ¬ env.extract_ok then
    (false, [AEvent.download, AEvent.extract env.target_version])
  else
    let evs3 := [AEvent.download, AEvent.extract env.target_version,
      AEvent.stopServices, AEvent.migrate]
    if ¬ env.migration_ok then (false, evs3 ++ [AEvent.startServices])
    else if ¬ env.switch_ok then
      (false, evs3 ++ [AEvent.switchTo ("v" ++ env.target_version), AEvent.startServices])
    else
      let evs5 := evs3 ++ [AEvent.switchTo ("v" ++ env.target_version), AEvent.startServices]
      let checked := health_check_loop health 0 env.health_check_retries
      let evs6 := evs5 ++ checked.1
      if checked.2 then (true, evs6 ++ [AEvent.report "success"])
      else if env.auto_rollback then
        (false, evs6 ++ [AEvent.stopServices,
          AEvent.switchTo ("v" ++ env.current_version), AEvent.startServices,
          AEvent.report "failed"])
      else (false, evs6)

/-- Python's `v.split('.')` over the character list of a version string:
splitting on every dot, keeping empty pieces (`"".split('.') == ['']`). -/
def splitDots : List Char → List (List Char)
  | [] => [[]]
  | c :: rest =>
    let r := splitDots rest
    if c = '.' then [] :: r
    else
      match r with
      | h :: t => (c :: h) :: t
      | [] => [[c]]

/-- Decimal digit value of a character, `none` for a non-digit. -/
def digitVal (c : Char) : Option Nat :=
  if '0' ≤ c ∧ c ≤ '9' then some (c.toNat - '0'.toNat) else none

/-- Accumulating decimal parser over a character list. -/
def parseNatAux : List Char → Nat → Option Nat
  | [], acc => some acc
  | c :: rest, acc =>
    match digitVal c with
    | some d => parseNatAux rest (acc * 10 + d)
    | none => none

/-- Python's `int(x)` on the decimal-digit strings that version
components are: `none` models the `ValueError` raised on the empty string
or a non-digit character. -/
def parseIntPy (s : List Char) : Option Nat :=
  match s with
  | [] => none
  | _ => parseNatAux s 0

/-- The `parse` helper inside `OTAManager._compare_versions`
(src/ota_manager.py, lines 383-384): `[int(x) for x in v.split('.')]`;
`none` models a raised `ValueError`. -/
def parseVersion (v : String) : Option (List Nat) :=
  (splitDots v.data).mapM parseIntPy

/-- The comparison loop of `OTAManager._compare_versions`
(src/ota_manager.py, lines 386-392): `zip` truncates to the shorter
list, and `0` is returned when the loop finds no strict difference. -/
def compare_parsed : List Nat → List Nat → Int
  | a :: as, b :: bs =>
    if a < b then -1 else if b < a then 1 else compare_parsed as bs
  | _, _ => 0

/-- `OTAManager._compare_versions` (src/ota_manager.py, lines 381-392);
`none` models a `ValueError` escaping from `parse`. -/
def compare_versions (v1 v2 : String) : Option Int :=
  match parseVersion v1, parseVersion v2 with
  | some p1, some p2 => some (compare_parsed p1 p2)
  | _, _ => none

/-- The version-compatibility gate of `OTAManager.pre_update_checks`
(src/ota_manager.py, lines 358-367): fail if the current version compares
below `min_version` or above `max_version`; an absent bound is skipped.
`none` models an exception from `_compare_versions`; `some b` says
whether both bounds passed. -/
def version_gate (current : String) (min_version max_version : Option String) :
    Option Bool :=
  let minCheck : Option Bool :=
    match min_version with
    | none => some true
    | some mv =>
      match compare_versions current mv with
      | none => none
      | some c => some (decide (¬ c < 0))
  match minCheck with
  | none => none
  | some false => some false
  | some true =>
    match max_version with
    | none => some true
    | some mv =>
      match compare_versions current mv with
      | none => none
      | some c => some (decide (¬ 0 < c))

/-- The per-component body of `VersionManager.verify_integrity`
(src/version_manager.py, lines 395-408): a missing file is `False`; a
file with no manifest entry is `True` ("not tracked yet"); otherwise the
stored checksum (`comp.get("checksum", "")`, here the value looked up in
`comps`) is compared with the recomputed one. -/
def verify_component (hashFn : String → String) (fs : FS)
    (comps : List (String × String)) (name rel : String) : Bool :=
  if ¬ fsPathExists fs rel then false
  else
    match List.lookup name comps with
    | none => true
    | some stored => stored = calculate_checksum hashFn fs rel

/-- `VersionManager.verify_integrity` (src/version_manager.py, lines
392-410): one pass/fail verdict per tracked component.  `comps` is the
manifest's component map restricted to the stored checksum strings. -/
def verify_integrity (hashFn : String → String) (fs : FS)
    (comps : List (String × String)) : List (String × Bool) :=
  TRACKED_COMPONENTS.map (fun nr => (nr.1, verify_component hashFn fs comps nr.1 nr.2))

/-- A sample file system: a releases root holding two release
directories, with the `current` pointer at v0.0.1. -/
def sampleFs : FS :=
  [("releases", FsNode.dir), ("releases/v0.0.1", FsNode.dir),
   ("releases/v0.0.2", FsNode.dir),
   ("current", FsNode.symlink "releases/v0.0.1")]

/-- A sample `install_update` environment: pre-update checks pass, one
file installs cleanly, health checks pass, auto-rollback enabled. -/
def sampleInstallEnv : InstallEnv :=
  ⟨true, [("facil_updated_1.py", true)], true, true⟩

/-- A sample `apply_update` environment in which the bundle's target
version equals the already-current version and every step succeeds. -/
def sampleApplyEnv : ApplyEnv :=
  ⟨"1.2.0", "1.2.0", true, true, true, true, 3, true⟩

/-- A sample `apply_update` environment for a genuine version change
(1.2.0 to 1.3.0) in which every step succeeds. -/
def sampleApplyEnv2 : ApplyEnv :=
  ⟨"1.2.0", "1.3.0", true, true, true, true, 3, true⟩

/-! ## File-system lemmas -/

theorem fsLookup_fsErase_ne (fs : FS) {p q : String} (h : p ≠ q) :
    fsLookup (fsErase fs p) q = fsLookup fs q := by
  induction fs with
  | nil => rfl
  | cons e rest ih =>
    obtain ⟨k, n⟩ := e
    by_cases hk : k = p <;> by_cases hq : k = q <;>
      simp_all [fsErase, fsLookup]

theorem fsLookup_fsErase_self (fs : FS) (p : String) :
    fsLookup (fsErase fs p) p = none := by
  induction fs with
  | nil => rfl
  | cons e rest ih =>
    obtain ⟨k, n⟩ := e
    by_cases hk : k = p <;> simp_all [fsErase, fsLookup]

theorem fsLookup_fsSet_self (fs : FS) (p : String) (n : FsNode) :
    fsLookup (fsSet fs p n) p = some n := by
  simp [fsSet, fsLookup]

theorem fsLookup_fsSet_ne (fs : FS) (n : FsNode) {p q : String} (h : p ≠ q) :
    fsLookup (fsSet fs p n) q = fsLookup fs q := by
  simp [fsSet, fsLookup, h, fsLookup_fsErase_ne fs h]

/-! ## C1: atomicity of the current-pointer update -/

/-- C1 counterexample.  The claim is false as stated: in the switch
performed while installing a bundle (`OTAManager._install_bundle`), the
pointer update is done by deleting the existing `current` symlink and
then recreating it, so on a file system where the pointer is initially
valid the trace contains an intermediate state with no valid current
pointer at all. -/
theorem C1_counterexample :
    current_valid sampleFs = true ∧
    ((install_bundle_switch sampleFs "releases/v0.0.2").2.all current_valid)
      = false := by decide

/-- C1 (amended): in `OTAUpdater._switch_version` the pointer update is
a single atomic rename of a freshly built link — at every intermediate
point of the switch a valid `current` pointer exists, and the final state
points at the requested version directory; but the switch performed while
installing a bundle (`OTAManager._install_bundle`) deletes the existing
pointer before recreating it, leaving an intermediate point with no
current pointer (see the counterexample). -/
theorem C1_switch_version_atomic (fs : FS) (version t : String)
    (hv : fsPathExists fs ("releases/" ++ version) = true)
    (hc : fsLookup fs "current" = some (FsNode.symlink t))
    (ht : fsPathExists fs t = true)
    (ht1 : t ≠ "current.tmp")
    (hv1 : "releases/" ++ version ≠ "current")
    (hv2 : "releases/" ++ version ≠ "current.tmp") :
    (switch_version fs version).1 = true ∧
    ((switch_version fs version).2.all current_valid) = true ∧
    fsLookup ((switch_version fs version).2.getLastD fs) "current"
      = some (FsNode.symlink ("releases/" ++ version)) := by
  have hct : ("current.tmp" : String) ≠ "current" := by decide
  have hctt : ("current.tmp" : String) ≠ t := fun h => ht1 h.symm
  have hval0 : current_valid fs = true := by
    simp [current_valid, hc, ht]
  by_cases htmp : fsPathExists fs "current.tmp" = true
  · simp only [switch_version, hv, htmp, not_true_eq_false, if_true, if_false,
      ite_true, ite_false, Bool.not_true, List.all_cons, List.all_nil,
      List.getLastD]
    refine ⟨by simp, ?_, ?_⟩
    · have h1 : current_valid (fsErase fs "current.tmp") = true := by
        simp [current_valid, fsLookup_fsErase_ne fs hct, hc, fsPathExists,
          fsLookup_fsErase_ne fs hctt]
        simpa [fsPathExists] using ht
      have h2 : current_valid
          (fsSet (fsErase fs "current.tmp") "current.tmp"
            (FsNode.symlink ("releases/" ++ version))) = true := by
        simp [current_valid, fsLookup_fsSet_ne _ _ hct,
          fsLookup_fsErase_ne fs hct, hc, fsPathExists,
          fsLookup_fsSet_ne _ _ hctt, fsLookup_fsErase_ne fs hctt]
        simpa [fsPathExists] using ht
      have h3 : current_valid
          (fsSet (fsErase (fsSet (fsErase fs "current.tmp") "current.tmp"
              (FsNode.symlink ("releases/" ++ version))) "current.tmp")
            "current" (FsNode.symlink ("releases/" ++ version))) = true := by
        simp [current_valid, fsLookup_fsSet_self, fsPathExists,
          fsLookup_fsSet_ne _ _ (Ne.symm hv1),
          fsLookup_fsErase_ne _ (Ne.symm hv2),
          fsLookup_fsSet_ne _ _ (Ne.symm hv2)]
        simpa [fsPathExists] using hv
      simp [hval0, h1, h2, h3]
    · simp [fsLookup_fsSet_self]
  · simp only [switch_version, hv, htmp, not_true_eq_false, if_true, if_false,
      ite_true, ite_false, Bool.not_true, List.all_cons, List.all_nil,
      List.getLastD]
    refine ⟨by simp, ?_, ?_⟩
    · have h2 : current_valid
          (fsSet fs "current.tmp" (FsNode.symlink ("releases/" ++ version)))
            = true := by
        simp [current_valid, fsLookup_fsSet_ne _ _ hct, hc, fsPathExists,
          fsLookup_fsSet_ne _ _ hctt]
        simpa [fsPathExists] using ht
      have h3 : current_valid
          (fsSet (fsErase (fsSet fs "current.tmp"
              (FsNode.symlink ("releases/" ++ version))) "current.tmp")
            "current" (FsNode.symlink ("releases/" ++ version))) = true := by
        simp [current_valid, fsLookup_fsSet_self, fsPathExists,
          fsLookup_fsSet_ne _ _ (Ne.symm hv1),
          fsLookup_fsErase_ne _ (Ne.symm hv2),
          fsLookup_fsSet_ne _ _ (Ne.symm hv2)]
        simpa [fsPathExists] using hv
      simp [hval0, h2, h3]
    · simp [fsLookup_fsSet_self]

/-- C1 witness: the amended switch theorem applied to the sample file
system, switching to v0.0.2. -/
theorem C1_witness :
    (switch_version sampleFs "v0.0.2").1 = true ∧
    ((switch_version sampleFs "v0.0.2").2.all current_valid) = true :=
  ⟨(C1_switch_version_atomic sampleFs "v0.0.2" "releases/v0.0.1"
      (by decide) (by decide) (by decide) (by decide) (by decide)
      (by decide)).1,
   (C1_switch_version_atomic sampleFs "v0.0.2" "releases/v0.0.1"
      (by decide) (by decide) (by decide) (by decide) (by decide)
      (by decide)).2.1⟩

/-! ## C2: backup before install, fail-closed -/

/-- C2 counterexample.  The claim is false as stated: in
`OTAManager.install_update` the `bool` returned by
`VersionManager.create_backup` is discarded, so when the backup fails
(`createBackup false` in the trace) the update is not blocked — the
component file is still installed and the update reports success. -/
theorem C2_counterexample :
    (install_update false sampleInstallEnv).1 = true ∧
    Event.installFile "facil_updated_1.py"
      ∈ (install_update false sampleInstallEnv).2 := by decide

/-- C2 (amended): `OTAManager.install_update` does attempt the backup
before any install step (whenever a component file is installed, the
first two steps of the trace are stopping services and the
`create_backup` call), but the backup's result is ignored: the outcome of
`install_update` is the same whether `create_backup` returned success or
failure, so a failed snapshot does not block the update. -/
theorem C2_backup_result_ignored (b1 b2 : Bool) (env : InstallEnv) (n : String) :
    (install_update b1 env).1 = (install_update b2 env).1 ∧
    (Event.installFile n ∈ (install_update b1 env).2 →
      (install_update b1 env).2.take 2
        = [Event.stopServices, Event.createBackup b1]) := by
  constructor
  · by_cases h1 : env.pre_checks_ok
    · by_cases h2 : (install_loop env.files).2 <;>
        by_cases h3 : env.health_ok <;>
          by_cases h4 : env.auto_rollback <;>
            simp [install_update, h1, h2, h3, h4]
    · simp [install_update, h1]
  · intro hmem
    by_cases h1 : env.pre_checks_ok
    · by_cases h2 : (install_loop env.files).2 <;>
        by_cases h3 : env.health_ok <;>
          by_cases h4 : env.auto_rollback <;>
            simp [install_update, h1, h2, h3, h4, List.take]
    · simp [install_update, h1] at hmem

/-- C2 witness: the amended theorem applied to the sample environment
with a failing backup. -/
theorem C2_witness :
    Event.installFile "facil_updated_1.py"
      ∈ (install_update false sampleInstallEnv).2 ∧
    (install_update false sampleInstallEnv).2.take 2
      = [Event.stopServices, Event.createBackup false] :=
  ⟨by decide,
   (C2_backup_result_ignored false true sampleInstallEnv
      "facil_updated_1.py").2 (by decide)⟩

/-! ## C3: applying an already-current version -/

/-- C3 counterexample.  The claim is false as stated:
`OTAUpdater.apply_update` never compares the bundle's target version with
the current version, so applying a package whose target version equals
the current version is not a no-op — it stops services, re-extracts the
release, re-points the symlink and returns plain success rather than any
"no update" result. -/
theorem C3_counterexample :
    sampleApplyEnv.target_version = sampleApplyEnv.current_version ∧
    (apply_update false sampleApplyEnv (fun _ => true)).1 = true ∧
    AEvent.stopServices ∈ (apply_update false sampleApplyEnv (fun _ => true)).2 ∧
    AEvent.extract "1.2.0" ∈ (apply_update false sampleApplyEnv (fun _ => true)).2
    := by decide

/-- C3 (amended): `OTAUpdater.apply_update` performs no current-version
equality check: when the target version equals the current version and
every step succeeds, the full update flow still runs — the bundle is
re-downloaded and re-extracted (the release directory is deleted and
recreated), services are stopped and restarted, the symlink is re-pointed
— and the call returns success, not a "no update" result.  The
already-current case is detected only by the backend inside
`check_for_updates`, never by `apply_update` itself. -/
theorem C3_apply_update_reinstalls_current (env : ApplyEnv)
    (health : Nat → Bool)
    (hd : env.download_ok = true) (he : env.extract_ok = true)
    (hm : env.migration_ok = true) (hs : env.switch_ok = true)
    (hh : health 0 = true) (hr : 0 < env.health_check_retries)
    (heq : env.target_version = env.current_version) :
    (apply_update false env health).1 = true ∧
    AEvent.stopServices ∈ (apply_update false env health).2 ∧
    AEvent.extract env.current_version ∈ (apply_update false env health).2 := by
  obtain ⟨k, hk⟩ : ∃ k, env.health_check_retries = k + 1 :=
    ⟨env.health_check_retries - 1, by omega⟩
  simp [apply_update, hd, he, hm, hs, hk, health_check_loop, hh, ← heq]

/-- C3 witness: the amended theorem applied to the sample environment in
which the target version is the current version. -/
theorem C3_witness :
    (apply_update false sampleApplyEnv (fun _ => true)).1 = true ∧
    AEvent.extract sampleApplyEnv.current_version
      ∈ (apply_update false sampleApplyEnv (fun _ => true)).2 :=
  ⟨(C3_apply_update_reinstalls_current sampleApplyEnv (fun _ => true)
      rfl rfl rfl rfl rfl (by decide) rfl).1,
   (C3_apply_update_reinstalls_current sampleApplyEnv (fun _ => true)
      rfl rfl rfl rfl rfl (by decide) rfl).2.2⟩

/-! ## C7: single-flight / busy result -/

/-- C7 counterexample.  The claim is false as stated: a call to
`OTAUpdater.apply_update` made while another update attempt is in
progress (first argument `true`) does not return an immediate "busy"
result — it runs a full second update attempt (services are stopped, the
whole event trace is produced) and returns ordinary success. -/
theorem C7_counterexample :
    (apply_update true sampleApplyEnv2 (fun _ => true)).1 = true ∧
    (apply_update true sampleApplyEnv2 (fun _ => true)).2 ≠ [] ∧
    AEvent.stopServices ∈ (apply_update true sampleApplyEnv2 (fun _ => true)).2
    := by decide

/-- C7 (amended): neither `OTAUpdater.apply_update` nor the code around
it keeps any orchestrator state, so there is no busy guard at all: the
result of `apply_update` is entirely independent of whether another
attempt is in progress, and every call immediately begins its own attempt
(the first step of the trace is always the download), never an early
"busy" return. -/
theorem C7_no_busy_guard (b1 b2 : Bool) (env : ApplyEnv) (health : Nat → Bool) :
    apply_update b1 env health = apply_update b2 env health ∧
    (apply_update b1 env health).2.head? = some AEvent.download := by
  refine ⟨rfl, ?_⟩
  by_cases hd : env.download_ok <;>
    by_cases he : env.extract_ok <;>
      by_cases hm : env.migration_ok <;>
        by_cases hs : env.switch_ok <;>
          by_cases hh : (health_check_loop health 0 env.health_check_retries).2 <;>
            by_cases ha : env.auto_rollback <;>
              simp [apply_update, hd, he, hm, hs, hh, ha]

/-! ## C4: retry behaviour on checksum mismatch -/

/-- C4 counterexample.  The claim is false as stated: with the default
`max_download_retries = 3`, a file whose every download attempt fails
checksum verification is fetched three times (two retries after the
first attempt, i.e. more than "at most one retry"), with backoff sleeps
of 1, 2 and 4 seconds between and after the attempts — checksum
mismatches are retried in the same loop as network errors. -/
theorem C4_counterexample :
    download_update_retries (fun _ => FetchOutcome.checksumMismatch) 3
      = (3, [1, 2, 4], false) ∧
    2 < (download_update_retries (fun _ => FetchOutcome.checksumMismatch) 3).1
    := by decide

/-- C4 (amended): the retry loop of `OTAManager.download_update` retries
every failed `download_file` call, checksum mismatches and transient
network errors alike, because `download_file` returns a bare `bool` that
cannot distinguish them: the loop makes at most `max_download_retries`
calls, and its entire behaviour depends only on the success flag of each
attempt, so two outcome sequences agreeing on success flags (for
instance all-mismatch versus all-network-error) drive it identically. -/
theorem C4_retry_loop_uniform (results results2 : Nat → FetchOutcome)
    (i fuel : Nat)
    (h : ∀ j, outcome_ok (results j) = outcome_ok (results2 j)) :
    (download_retry_loop results i fuel).1 ≤ fuel ∧
    download_retry_loop results i fuel = download_retry_loop results2 i fuel := by
  induction fuel generalizing i with
  | zero => simp [download_retry_loop]
  | succ k ih =>
    by_cases hi : outcome_ok (results i) = true
    · simp [download_retry_loop, hi, ← h i]
    · have := ih (i + 1)
      simp only [download_retry_loop, hi, ← h i, if_false, Bool.false_eq_true,
        ite_false]
      refine ⟨by omega, ?_⟩
      rw [this.2]

/-- C4 witness: the amended theorem applied to the all-mismatch and
all-network-error outcome sequences at the default retry bound. -/
theorem C4_witness :
    (download_retry_loop (fun _ => FetchOutcome.checksumMismatch) 0 3).1 ≤ 3 ∧
    download_retry_loop (fun _ => FetchOutcome.checksumMismatch) 0 3
      = download_retry_loop (fun _ => FetchOutcome.networkError) 0 3 :=
  C4_retry_loop_uniform (fun _ => FetchOutcome.checksumMismatch)
    (fun _ => FetchOutcome.networkError) 0 3 (fun _ => rfl)

/-! ## C5: manifest save atomicity -/

/-- C5 counterexample.  The claim is false as stated:
`VersionManager.save_manifest` opens the manifest path directly with mode
`'w'`, so on a file system whose manifest holds "OLD", saving "NEW"
produces an intermediate state in which the manifest file holds the
partially written value "" — neither the old nor the new content — and
no temporary file or rename is involved. -/
theorem C5_counterexample :
    ((save_manifest [("ota/manifest.json", FsNode.file "OLD")] "NEW" "LEG").any
      (fun s => decide (fsLookup s "ota/manifest.json"
          ≠ some (FsNode.file "OLD") ∧
        fsLookup s "ota/manifest.json" ≠ some (FsNode.file "NEW")))) = true
    := by decide

/-- C5 (amended): `VersionManager.save_manifest` writes the manifest (and
the legacy `version.json`) in place with truncate-then-write: no state of
the save ever touches a temporary path `ota/manifest.json.tmp`, the state
right after the `open` holds an empty manifest file, and the final state
holds the new content.  The save is therefore not atomic — mid-save the
manifest file holds a partially written value. -/
theorem C5_save_manifest_in_place (fs : FS) (m l : String) :
    ((save_manifest fs m l).all
      (fun s => decide (fsLookup s "ota/manifest.json.tmp"
        = fsLookup fs "ota/manifest.json.tmp"))) = true ∧
    fsLookup ((save_manifest fs m l).getD 1 fs) "ota/manifest.json"
      = some (FsNode.file "") ∧
    fsLookup ((save_manifest fs m l).getLastD fs) "ota/manifest.json"
      = some (FsNode.file m) := by
  have h1 : ("ota/manifest.json" : String) ≠ "ota/manifest.json.tmp" := by decide
  have h2 : ("ota/version.json" : String) ≠ "ota/manifest.json.tmp" := by decide
  have h3 : ("ota/version.json" : String) ≠ "ota/manifest.json" := by decide
  refine ⟨?_, ?_, ?_⟩
  · simp [save_manifest, fsLookup_fsSet_ne _ _ h1, fsLookup_fsSet_ne _ _ h2]
  · simp [save_manifest, fsLookup_fsSet_self]
  · simp [save_manifest, fsLookup_fsSet_self, fsLookup_fsSet_ne _ _ h3]

/-! ## C6: fetch destination and checksum verification -/

theorem ne_append_tmp (s : String) : s ≠ s ++ ".tmp" := by
  intro h
  have hlen := congrArg String.length h
  simp [String.length_append] at hlen
  exact absurd hlen (by decide)

/-- C6 counterexample.  The claim is false as stated for
`OTAUpdater.download_bundle`: it streams the response directly to the
destination path, so on a mismatching download the trace contains a state
in which the destination exists holding exactly the mismatching bytes
(the file is only deleted afterwards); no temp file is used at all. -/
theorem C6_counterexample :
    (download_bundle id [] "BYTES" "ota/downloads/v1.0.0.tar.gz"
      (some "GOOD")).1 = false ∧
    ((download_bundle id [] "BYTES" "ota/downloads/v1.0.0.tar.gz"
      (some "GOOD")).2.any
      (fun s => decide (fsLookup s "ota/downloads/v1.0.0.tar.gz"
        = some (FsNode.file "BYTES")))) = true := by decide

/-- C6 (amended): `OTAManager.download_file` does satisfy the claim —
on a checksum mismatch it returns an integrity failure, no state of its
trace ever changes the destination path, and the final state has the temp
file deleted; `OTAUpdater.download_bundle`, by contrast, streams straight
to the destination path and only deletes it after the failed check, so
there the destination transiently holds the unverified bytes (see the
counterexample). -/
theorem C6_download_file_mismatch_safe (hashFn : String → String) (fs : FS)
    (bytes dest e : String)
    (hm : hashFn (download_prior fs dest ++ bytes) ≠ e) :
    (download_file hashFn fs bytes dest (some e)).1 = false ∧
    ((download_file hashFn fs bytes dest (some e)).2.all
      (fun s => decide (fsLookup s dest = fsLookup fs dest))) = true ∧
    fsLookup ((download_file hashFn fs bytes dest (some e)).2.getLastD fs)
      (dest ++ ".tmp") = none := by
  have hne : dest ≠ dest ++ ".tmp" := ne_append_tmp dest
  have hne2 : dest ++ ".tmp" ≠ dest := fun h => hne h.symm
  refine ⟨?_, ?_, ?_⟩
  · simp [download_file, hm]
  · simp [download_file, hm, fsLookup_fsSet_ne _ _ hne2,
      fsLookup_fsErase_ne _ hne2]
  · simp [download_file, hm, fsLookup_fsErase_self]

/-- C6 witness: the amended theorem applied to a concrete mismatching
download. -/
theorem C6_witness :
    (download_file id [] "B" "f.bin" (some "E")).1 = false ∧
    fsLookup ((download_file id [] "B" "f.bin" (some "E")).2.getLastD [])
      "f.bin.tmp" = none :=
  ⟨(C6_download_file_mismatch_safe id [] "B" "f.bin" "E" (by decide)).1,
   (C6_download_file_mismatch_safe id [] "B" "f.bin" "E" (by decide)).2.2⟩

/-! ## C8: snapshot/restore round-trip -/

/-- C8 counterexample.  The claim is false as stated: for the tracked
component `get_gps_data.py` whose file is missing while a stale quick
backup exists, `create_backup` silently skips the missing source
(returning success) and `rollback` then resurrects the stale backup, so
the on-disk checksum changes from "" (missing file) to the stale
content's hash — the round-trip does not preserve the pre-snapshot
checksum. -/
theorem C8_counterexample :
    calculate_checksum id
      [("backups/current/get_gps_data.py", FsNode.file "stale")]
      "get_gps_data.py" = "" ∧
    calculate_checksum id
      (rollback
        (create_backup [("backups/current/get_gps_data.py", FsNode.file "stale")]
          "get_gps_data.py" "20240101_000000" "m1" "l1")
        "get_gps_data.py" "20240101_000001" "m2" "l2")
      "get_gps_data.py" = "stale" := by decide

/-- C8 (amended): for every tracked component whose file exists at
snapshot time, `create_backup` followed by `rollback` (with no
intervening modification) leaves the component's on-disk checksum
identical to its pre-snapshot value; the path-distinctness hypotheses
record that the component's own path and its quick-backup path are
distinct from the manifest, archive and history paths the two operations
also write, which holds for every real component/timestamp pair. -/
theorem C8_backup_restore_roundtrip (hashFn : String → String) (fs : FS)
    (comp rel content ts hts m1 l1 m2 l2 : String)
    (hmem : List.lookup comp TRACKED_COMPONENTS = some rel)
    (hsrc : fsLookup fs rel = some (FsNode.file content))
    (h4 : "ota/manifest.json" ≠ rel)
    (h5 : "ota/version.json" ≠ rel)
    (h6 : "ota/history/update_" ++ hts ++ ".json" ≠ rel)
    (h7 : "backups/archive/" ++ ts ≠ "backups/current/" ++ comp)
    (h8 : "ota/manifest.json" ≠ "backups/current/" ++ comp)
    (h9 : "ota/version.json" ≠ "backups/current/" ++ comp) :
    calculate_checksum hashFn
      (rollback (create_backup fs comp ts m1 l1) comp hts m2 l2) rel
      = calculate_checksum hashFn fs rel := by
  have hquick : fsLookup (create_backup fs comp ts m1 l1)
      ("backups/current/" ++ comp) = some (FsNode.file content) := by
    by_cases harch : ("backups/archive/" ++ ts ++ "/" ++ comp)
        = ("backups/current/" ++ comp)
    · simp [create_backup, hmem, hsrc, save_manifest_final, save_manifest,
        fsLookup_fsSet_ne _ _ h9, fsLookup_fsSet_ne _ _ h8, harch,
        fsLookup_fsSet_self]
    · simp [create_backup, hmem, hsrc, save_manifest_final, save_manifest,
        fsLookup_fsSet_ne _ _ h9, fsLookup_fsSet_ne _ _ h8,
        fsLookup_fsSet_ne _ _ harch, fsLookup_fsSet_ne _ _ h7,
        fsLookup_fsSet_self]
  have hrel : fsLookup
      (rollback (create_backup fs comp ts m1 l1) comp hts m2 l2) rel
      = some (FsNode.file content) := by
    simp [rollback, hquick, hmem, save_manifest_final, save_manifest,
      fsLookup_fsSet_ne _ _ h5, fsLookup_fsSet_ne _ _ h4,
      fsLookup_fsSet_ne _ _ h6, fsLookup_fsSet_self]
  simp [calculate_checksum, hrel, hsrc]

/-- C8 witness: the round-trip applied to a concrete file system holding
the tracked component `get_gps_data.py`. -/
theorem C8_witness :
    calculate_checksum id
      (rollback
        (create_backup [("get_gps_data.py", FsNode.file "c")]
          "get_gps_data.py" "ts0" "m1" "l1")
        "get_gps_data.py" "ts1" "m2" "l2")
      "get_gps_data.py"
      = calculate_checksum id [("get_gps_data.py", FsNode.file "c")]
          "get_gps_data.py" :=
  C8_backup_restore_roundtrip id [("get_gps_data.py", FsNode.file "c")]
    "get_gps_data.py" "get_gps_data.py" "c" "ts0" "ts1" "m1" "l1" "m2" "l2"
    (by decide) (by decide) (by decide) (by decide) (by decide) (by decide)
    (by decide) (by decide)

/-! ## C9: prefix versions compare equal -/

theorem compare_parsed_append_right (p r : List Nat) :
    compare_parsed p (p ++ r) = 0 := by
  induction p with
  | nil => cases r <;> simp [compare_parsed]
  | cons a as ih => simp [compare_parsed, ih]

theorem compare_parsed_append_left (p r : List Nat) :
    compare_parsed (p ++ r) p = 0 := by
  induction p with
  | nil => cases r <;> simp [compare_parsed]
  | cons a as ih => simp [compare_parsed, ih]

/-- C9 (confirmed): `OTAManager._compare_versions` builds the comparison
on `zip`, which truncates to the shorter parsed list, so two version
strings one of whose parsed forms is a prefix of the other's compare as
`0` (equal) in both orders, and such a pair always passes both the
`min_version` and the `max_version` gate of `pre_update_checks`. -/
theorem C9_prefix_versions_equal (v1 v2 : String) (p r : List Nat)
    (h1 : parseVersion v1 = some p)
    (h2 : parseVersion v2 = some (p ++ r)) :
    compare_versions v1 v2 = some 0 ∧
    compare_versions v2 v1 = some 0 ∧
    version_gate v1 (some v2) (some v2) = some true ∧
    version_gate v2 (some v1) (some v1) = some true := by
  have hc1 : compare_versions v1 v2 = some 0 := by
    simp [compare_versions, h1, h2, compare_parsed_append_right]
  have hc2 : compare_versions v2 v1 = some 0 := by
    simp [compare_versions, h1, h2, compare_parsed_append_left]
  refine ⟨hc1, hc2, ?_, ?_⟩
  · simp [version_gate, hc1]
  · simp [version_gate, hc2]

/-- C9 witness: "1.2" and "1.2.9", where the first parsed version is a
dot-separated prefix of the second, compare equal and pass the gate. -/
theorem C9_witness :
    compare_versions "1.2" "1.2.9" = some 0 ∧
    version_gate "1.2" (some "1.2.9") (some "1.2.9") = some true :=
  ⟨(C9_prefix_versions_equal "1.2" "1.2.9" [1, 2] [9]
      (by decide) (by decide)).1,
   (C9_prefix_versions_equal "1.2" "1.2.9" [1, 2] [9]
      (by decide) (by decide)).2.2.1⟩

/-! ## C10: verify_integrity on missing files and untracked entries -/

theorem lookup_map_value (g : String → String → Bool)
    (L : List (String × String)) (name rel : String)
    (h : List.lookup name L = some rel) :
    List.lookup name (L.map (fun nr => (nr.1, g nr.1 nr.2)))
      = some (g name rel) := by
  induction L with
  | nil => simp [List.lookup] at h
  | cons e rest ih =>
    obtain ⟨k, v⟩ := e
    by_cases hk : name = k
    · subst hk
      simp [List.lookup] at h
      simp [List.lookup, h]
    · have hbeq : (name == k) = false := by
        simp [hk]
      simp [List.lookup, hbeq] at h
      simp [List.lookup, hbeq, ih h]

/-- C10 (confirmed): for every tracked component,
`VersionManager.verify_integrity` reports exactly the per-component
verdict of its loop body, and that verdict is `true` whenever the
component's file exists on disk but has no manifest entry ("not tracked
yet"), and `false` whenever the file is missing from disk, regardless of
any checksum the manifest records. -/
theorem C10_verify_integrity_missing_untracked (hashFn : String → String)
    (fs : FS) (comps : List (String × String)) (name rel : String)
    (hmem : List.lookup name TRACKED_COMPONENTS = some rel) :
    List.lookup name (verify_integrity hashFn fs comps)
      = some (verify_component hashFn fs comps name rel) ∧
    (fsPathExists fs rel = true → List.lookup name comps = none →
      verify_component hashFn fs comps name rel = true) ∧
    (fsPathExists fs rel = false →
      verify_component hashFn fs comps name rel = false) := by
  refine ⟨lookup_map_value _ _ _ _ hmem, ?_, ?_⟩
  · intro hex hno
    simp [verify_component, hex, hno]
  · intro hex
    simp [verify_component, hex]

/-- C10 witness: the theorem applied to `get_gps_data.py`, once on a file
system holding it with an empty manifest (verdict `true`) and once on an
empty file system (verdict `false`). -/
theorem C10_witness :
    verify_component id [("get_gps_data.py", FsNode.file "x")] []
      "get_gps_data.py" "get_gps_data.py" = true ∧
    verify_component id [] [] "get_gps_data.py" "get_gps_data.py" = false :=
  ⟨(C10_verify_integrity_missing_untracked id
      [("get_gps_data.py", FsNode.file "x")] [] "get_gps_data.py"
      "get_gps_data.py" (by decide)).2.1 (by decide) rfl,
   (C10_verify_integrity_missing_untracked id [] [] "get_gps_data.py"
      "get_gps_data.py" (by decide)).2.2 (by decide)⟩
